import Mathlib

/-!
Verification of the device lifecycle watcher and the plugin admission pipeline
of the flipper desktop client, embedded shallowly from the TypeScript source
(`dispatcher/androidDevice` and `dispatcher/plugins`, given as
`src/unnamed/part_001`).

JavaScript conventions used throughout the embedding:
an optional string field is `Option String`, where `none` models
`undefined`/`null`; a value is JS-falsy when it is `none` or the empty
string, and `a || b` on such values is `orElseJS a b`.
-/

namespace FlipperSpec

/-- JS falsiness for optional string values: `undefined`, `null` and `""`
are falsy, every other string is truthy. -/
def jsFalsy : Option String → Bool
  | none => true
  | some s => s == ""

/-- The JS expression `a || b` on optional string values. -/
def orElseJS (a b : Option String) : Option String :=
  if jsFalsy a then b else a

/-! ## Plugin admission pipeline (dispatcher/plugins) -/

/-- The `PluginDefinition` type from the source: a plugin descriptor coming
from the bundled manifest or the dynamic environment-supplied JSON list.
A field is `none` when the key is absent from the source manifest. -/
structure PluginDefinition where
  id : Option String
  name : String
  out : Option String
  gatekeeper : Option String
  entry : Option String
deriving DecidableEq, Repr

/-- The implementation value resolved by `electronRequire` (after unwrapping
a `default` export), viewed through the fields the pipeline inspects:
`extendsBase` models `plugin.prototype instanceof FlipperBasePlugin`,
`className` models the JS class `name` used in the failure message, and the
remaining fields are the static metadata the backfill loop touches. -/
structure LoadedPlugin where
  extendsBase : Bool
  className : String
  id : Option String
  out : Option String
  gatekeeper : Option String
  entry : Option String
deriving DecidableEq, Repr

/-- The metadata backfill loop of `requirePlugin`: for each key present on
the descriptor, `plugin[key] = plugin[key] || pluginDefinition[key]`; the
`name` key instead backfills `plugin.id` from the descriptor's name. The
`id` key is handled separately (it throws) and so does not appear here. -/
def applyBackfill (d : PluginDefinition) (p : LoadedPlugin) : LoadedPlugin :=
  { p with
    id := orElseJS p.id (some d.name)
    out := match d.out with
      | none => p.out
      | some v => orElseJS p.out (some v)
    gatekeeper := match d.gatekeeper with
      | none => p.gatekeeper
      | some v => orElseJS p.gatekeeper (some v)
    entry := match d.entry with
      | none => p.entry
      | some v => orElseJS p.entry (some v) }

/-- `requirePlugin` applied to one descriptor. `reqFn` models
`electronRequire` (plus the `default`-export unwrapping): it yields the
resolved implementation or the message of the exception it threw.
`Except.error m` models the catch branch pushing `[definition, m]` onto
`failedPlugins` and returning `null`. -/
def requirePluginOne (reqFn : Option String → Except String LoadedPlugin)
    (d : PluginDefinition) : Except String LoadedPlugin :=
  match reqFn d.out with
  | Except.error m => Except.error m
  | Except.ok plugin =>
    if plugin.extendsBase = false then
      Except.error ("Plugin " ++ plugin.className ++ " is not a FlipperBasePlugin")
    else if d.id.isSome then
      Except.error "Field \"id\" not allowed in package.json. The plugin\x27s name will be used as ID\""
    else
      Except.ok (applyBackfill d plugin)

/-- The process-wide inputs of one pipeline run: the disabled-plugin names
from `config()`, the gatekeeper service `GK.get`, and the module loader.
The spec fixes these for the duration of a run. -/
structure PluginEnvironment where
  disabledList : List String
  gkGet : String → Bool
  reqFn : Option String → Except String LoadedPlugin

/-- The boolean returned by `checkDisabled`: true when the descriptor
survives (its name is not in the disabled list); the filtered-out
descriptors are pushed onto `disabledPlugins`. -/
def checkDisabledPasses (env : PluginEnvironment) (d : PluginDefinition) : Bool :=
  !(env.disabledList.contains d.name)

/-- The boolean returned by `checkGK`: true when the descriptor has no
gatekeeper key, or the gatekeeper reports the key active; a descriptor with
an inactive key is pushed onto `gatekeepedPlugins`. -/
def checkGKPasses (env : PluginEnvironment) (d : PluginDefinition) : Bool :=
  match d.gatekeeper with
  | none => true
  | some k => env.gkGet k

/-- The four collections produced by one run of the admission pipeline:
`initialPlugins` is the list the chained expression evaluates to, the other
three are the arrays the check closures push onto. -/
structure AdmissionOutput where
  initialPlugins : List LoadedPlugin
  disabledPlugins : List PluginDefinition
  gatekeepedPlugins : List PluginDefinition
  failedPlugins : List (PluginDefinition × String)
deriving DecidableEq, Repr

/-- The pipeline
`plugins.filter(checkDisabled(...)).filter(checkGK(...)).map(requirePlugin(...)).filter(Boolean)`
together with the three side arrays, each accumulated in input order. -/
def runAdmission (env : PluginEnvironment) (plugins : List PluginDefinition) :
    AdmissionOutput where
  initialPlugins :=
    ((plugins.filter (fun d => checkDisabledPasses env d)).filter
        (fun d => checkGKPasses env d)).filterMap (fun d =>
      match requirePluginOne env.reqFn d with
      | Except.ok p => some p
      | Except.error _ => none)
  disabledPlugins := plugins.filter (fun d => !(checkDisabledPasses env d))
  gatekeepedPlugins :=
    (plugins.filter (fun d => checkDisabledPasses env d)).filter
      (fun d => !(checkGKPasses env d))
  failedPlugins :=
    ((plugins.filter (fun d => checkDisabledPasses env d)).filter
        (fun d => checkGKPasses env d)).filterMap (fun d =>
      match requirePluginOne env.reqFn d with
      | Except.ok _ => none
      | Except.error m => some (d, m))

/-- The single outcome the pipeline assigns to one descriptor, applying the
disable check, then the gatekeeper check, then the load step. -/
inductive AdmissionOutcome where
  | admitted (p : LoadedPlugin)
  | disabled
  | gatekeeped
  | failed (m : String)
deriving DecidableEq, Repr

/-- Per-descriptor classification induced by the pipeline's chained filters. -/
def classify (env : PluginEnvironment) (d : PluginDefinition) : AdmissionOutcome :=
  if checkDisabledPasses env d = false then AdmissionOutcome.disabled
  else if checkGKPasses env d = false then AdmissionOutcome.gatekeeped
  else match requirePluginOne env.reqFn d with
    | Except.ok p => AdmissionOutcome.admitted p
    | Except.error m => AdmissionOutcome.failed m

/-! ### Pipeline lemmas -/

theorem filter_filter_fuse {α : Type} (p q : α → Bool) (l : List α) :
    (l.filter p).filter q = l.filter (fun a => p a && q a) := by
  induction l with
  | nil => rfl
  | cons a t ih =>
    cases h1 : p a <;> cases h2 : q a <;> simp [List.filter_cons, h1, h2, ih]

theorem filterMap_filter_fuse {α β : Type} (p : α → Bool) (f : α → Option β) (l : List α) :
    (l.filter p).filterMap f = l.filterMap (fun a => if p a then f a else none) := by
  induction l with
  | nil => rfl
  | cons a t ih =>
    cases h : p a
    · simp [List.filter_cons, h, List.filterMap_cons, ih]
    · cases hf : f a <;> simp [List.filter_cons, h, List.filterMap_cons, ih, hf]

theorem not_checkDisabled_eq_classify_disabled (env : PluginEnvironment) (d : PluginDefinition) :
    (!(checkDisabledPasses env d)) = decide (classify env d = AdmissionOutcome.disabled) := by
  unfold classify
  cases h1 : checkDisabledPasses env d <;> cases h2 : checkGKPasses env d <;>
    cases hr : requirePluginOne env.reqFn d <;> simp [h1, h2, hr]

theorem runAdmission_disabled_eq (env : PluginEnvironment) (plugins : List PluginDefinition) :
    (runAdmission env plugins).disabledPlugins
      = plugins.filter (fun d => decide (classify env d = AdmissionOutcome.disabled)) := by
  show plugins.filter (fun d => !(checkDisabledPasses env d)) = _
  congr 1
  funext d
  exact not_checkDisabled_eq_classify_disabled env d

theorem runAdmission_gatekeeped_eq (env : PluginEnvironment) (plugins : List PluginDefinition) :
    (runAdmission env plugins).gatekeepedPlugins
      = plugins.filter (fun d => decide (classify env d = AdmissionOutcome.gatekeeped)) := by
  show (plugins.filter (fun d => checkDisabledPasses env d)).filter
      (fun d => !(checkGKPasses env d)) = _
  rw [filter_filter_fuse]
  congr 1
  funext d
  unfold classify
  cases h1 : checkDisabledPasses env d <;> cases h2 : checkGKPasses env d <;>
    cases hr : requirePluginOne env.reqFn d <;> simp [h1, h2, hr]

theorem runAdmission_failed_eq (env : PluginEnvironment) (plugins : List PluginDefinition) :
    (runAdmission env plugins).failedPlugins
      = plugins.filterMap (fun d =>
          match classify env d with
          | AdmissionOutcome.failed m => some (d, m)
          | _ => none) := by
  show ((plugins.filter (fun d => checkDisabledPasses env d)).filter
      (fun d => checkGKPasses env d)).filterMap _ = _
  rw [filter_filter_fuse, filterMap_filter_fuse]
  congr 1
  funext d
  unfold classify
  cases h1 : checkDisabledPasses env d <;> cases h2 : checkGKPasses env d <;>
    cases hr : requirePluginOne env.reqFn d <;> simp [h1, h2, hr]

theorem runAdmission_initial_eq (env : PluginEnvironment) (plugins : List PluginDefinition) :
    (runAdmission env plugins).initialPlugins
      = plugins.filterMap (fun d =>
          match classify env d with
          | AdmissionOutcome.admitted p => some p
          | _ => none) := by
  show ((plugins.filter (fun d => checkDisabledPasses env d)).filter
      (fun d => checkGKPasses env d)).filterMap _ = _
  rw [filter_filter_fuse, filterMap_filter_fuse]
  congr 1
  funext d
  unfold classify
  cases h1 : checkDisabledPasses env d <;> cases h2 : checkGKPasses env d <;>
    cases hr : requirePluginOne env.reqFn d <;> simp [h1, h2, hr]

theorem classify_bucket_lengths (env : PluginEnvironment) (plugins : List PluginDefinition) :
    (plugins.filterMap (fun d => match classify env d with
        | AdmissionOutcome.admitted p => some p | _ => none)).length
    + (plugins.filter (fun d => decide (classify env d = AdmissionOutcome.disabled))).length
    + (plugins.filter (fun d => decide (classify env d = AdmissionOutcome.gatekeeped))).length
    + (plugins.filterMap (fun d => match classify env d with
        | AdmissionOutcome.failed m => some (d, m) | _ => none)).length
    = plugins.length := by
  induction plugins with
  | nil => rfl
  | cons d rest ih =>
    cases h : classify env d <;>
      simp [List.filter_cons, List.filterMap_cons, h] <;> omega

/-- Claim C1: every input descriptor (bundled plus dynamic) is assigned by
the admission pipeline to exactly one of the four outcome buckets — the
three side collections are exactly the input's sublists of descriptors the
per-descriptor classification sends to that outcome, the admitted list is
the classification's admitted implementations, and the four bucket lengths
sum to the input length, so nothing is lost or duplicated across buckets. -/
theorem admission_pipeline_is_partition (env : PluginEnvironment)
    (plugins : List PluginDefinition) :
    (runAdmission env plugins).disabledPlugins
        = plugins.filter (fun d => decide (classify env d = AdmissionOutcome.disabled))
    ∧ (runAdmission env plugins).gatekeepedPlugins
        = plugins.filter (fun d => decide (classify env d = AdmissionOutcome.gatekeeped))
    ∧ (runAdmission env plugins).failedPlugins
        = plugins.filterMap (fun d => match classify env d with
            | AdmissionOutcome.failed m => some (d, m)
            | _ => none)
    ∧ (runAdmission env plugins).initialPlugins
        = plugins.filterMap (fun d => match classify env d with
            | AdmissionOutcome.admitted p => some p
            | _ => none)
    ∧ (runAdmission env plugins).initialPlugins.length
        + (runAdmission env plugins).disabledPlugins.length
        + (runAdmission env plugins).gatekeepedPlugins.length
        + (runAdmission env plugins).failedPlugins.length
      = plugins.length :=
  ⟨runAdmission_disabled_eq env plugins, runAdmission_gatekeeped_eq env plugins,
   runAdmission_failed_eq env plugins, runAdmission_initial_eq env plugins, by
     rw [runAdmission_disabled_eq, runAdmission_gatekeeped_eq, runAdmission_failed_eq,
       runAdmission_initial_eq]
     exact classify_bucket_lengths env plugins⟩

/-- Claim C3: the disable check runs strictly before the gatekeeper check,
so a descriptor whose name is in the disabled list and whose gatekeeper key
is reported inactive is classified as disabled, lands in the disabled
bucket, and never appears in the gatekept bucket. -/
theorem disabled_check_precedes_gatekeeper (env : PluginEnvironment)
    (plugins : List PluginDefinition) (d : PluginDefinition) (k : String)
    (hmem : d ∈ plugins)
    (hdis : env.disabledList.contains d.name = true)
    (_hkey : d.gatekeeper = some k) (_hinactive : env.gkGet k = false) :
    classify env d = AdmissionOutcome.disabled
    ∧ d ∈ (runAdmission env plugins).disabledPlugins
    ∧ d ∉ (runAdmission env plugins).gatekeepedPlugins := by
  have hcls : classify env d = AdmissionOutcome.disabled := by
    unfold classify checkDisabledPasses
    rw [hdis]
    simp
  refine ⟨hcls, ?_, ?_⟩
  · rw [runAdmission_disabled_eq]
    exact List.mem_filter.mpr ⟨hmem, by simp [hcls]⟩
  · rw [runAdmission_gatekeeped_eq]
    intro hg
    have hgcls := (List.mem_filter.mp hg).2
    simp [hcls] at hgcls

def cdescC3 : PluginDefinition :=
  { id := none, name := "Sections", out := some "/plugins/sections",
    gatekeeper := some "gk_sections", entry := none }

def cenvC3 : PluginEnvironment :=
  { disabledList := ["Sections"], gkGet := fun _ => false,
    reqFn := fun _ => Except.error "Cannot find module" }

theorem disabled_check_precedes_gatekeeper_witness :
    cdescC3 ∈ [cdescC3]
    ∧ cenvC3.disabledList.contains cdescC3.name = true
    ∧ cdescC3.gatekeeper = some "gk_sections"
    ∧ cenvC3.gkGet "gk_sections" = false
    ∧ (classify cenvC3 cdescC3 = AdmissionOutcome.disabled
      ∧ cdescC3 ∈ (runAdmission cenvC3 [cdescC3]).disabledPlugins
      ∧ cdescC3 ∉ (runAdmission cenvC3 [cdescC3]).gatekeepedPlugins) :=
  ⟨by decide, by decide, by decide, rfl,
   disabled_check_precedes_gatekeeper cenvC3 [cdescC3] cdescC3 "gk_sections"
     (by decide) (by decide) (by decide) rfl⟩

/-! ### C4: a descriptor that sets `id` -/

def cdescC4 : PluginDefinition :=
  { id := some "badId", name := "Sonar", out := some "/plugins/sonar",
    gatekeeper := none, entry := none }

def cenvC4 : PluginEnvironment :=
  { disabledList := ["Sonar"], gkGet := fun _ => true,
    reqFn := fun _ => Except.error "Cannot find module" }

/-- Counterexample to claim C4 as stated: a descriptor that sets `id` but
whose name is in the disabled list is routed to Disabled, not Failed — the
failed bucket stays empty, so the pipeline does not always route an
id-bearing descriptor to Failed. -/
theorem id_descriptor_not_always_failed_cex :
    cdescC4.id.isSome = true
    ∧ (runAdmission cenvC4 [cdescC4]).failedPlugins = []
    ∧ (runAdmission cenvC4 [cdescC4]).disabledPlugins = [cdescC4] := by decide

theorem requirePluginOne_error_of_id (reqFn : Option String → Except String LoadedPlugin)
    (d : PluginDefinition) (hid : d.id.isSome = true) :
    ∃ m, requirePluginOne reqFn d = Except.error m := by
  unfold requirePluginOne
  cases hr : reqFn d.out with
  | error m => exact ⟨m, rfl⟩
  | ok plugin =>
    cases hb : plugin.extendsBase
    · exact ⟨"Plugin " ++ plugin.className ++ " is not a FlipperBasePlugin", by simp [hb]⟩
    · exact ⟨"Field \"id\" not allowed in package.json. The plugin\x27s name will be used as ID\"",
        by simp [hb, hid]⟩

theorem filterMap_middle_none {α β : Type} (f : α → Option β) (pre post : List α) (d : α)
    (h : f d = none) :
    (pre ++ d :: post).filterMap f = pre.filterMap f ++ post.filterMap f := by
  rw [List.filterMap_append, List.filterMap_cons, h]

/-- Claim C4 (amended): a descriptor whose manifest sets `id` is never
admitted; when it passes the disable and gatekeeper checks it is routed to
Failed with an error message (when instead its name is disabled or its
gatekeeper key inactive, those earlier checks claim it first); and its
failure never aborts processing of the remaining descriptors — the admitted
output of any surrounding list is unaffected by its presence. -/
theorem id_descriptor_never_admitted (env : PluginEnvironment) (d : PluginDefinition)
    (hid : d.id.isSome = true) :
    (∀ p, classify env d ≠ AdmissionOutcome.admitted p)
    ∧ (checkDisabledPasses env d = true → checkGKPasses env d = true →
        ∃ m, classify env d = AdmissionOutcome.failed m)
    ∧ (∀ pre post, (runAdmission env (pre ++ d :: post)).initialPlugins
        = (runAdmission env pre).initialPlugins ++ (runAdmission env post).initialPlugins) := by
  obtain ⟨m0, hm0⟩ := requirePluginOne_error_of_id env.reqFn d hid
  have hnotadm : ∀ p, classify env d ≠ AdmissionOutcome.admitted p := by
    intro p
    unfold classify
    cases h1 : checkDisabledPasses env d <;> cases h2 : checkGKPasses env d <;>
      simp [h1, h2, hm0]
  refine ⟨hnotadm, ?_, ?_⟩
  · intro h1 h2
    refine ⟨m0, ?_⟩
    unfold classify
    simp [h1, h2, hm0]
  · intro pre post
    have hnone : (match classify env d with
        | AdmissionOutcome.admitted p => some p
        | _ => none) = (none : Option LoadedPlugin) := by
      cases hc : classify env d with
      | admitted p => exact absurd hc (hnotadm p)
      | disabled => rfl
      | gatekeeped => rfl
      | failed m => rfl
    rw [runAdmission_initial_eq, runAdmission_initial_eq, runAdmission_initial_eq]
    exact filterMap_middle_none _ pre post d hnone

def wdescC4 : PluginDefinition :=
  { id := some "network", name := "Network", out := some "/plugins/network",
    gatekeeper := none, entry := none }

def wenvC4 : PluginEnvironment :=
  { disabledList := [], gkGet := fun _ => true,
    reqFn := fun _ => Except.error "Cannot find module" }

theorem id_descriptor_never_admitted_witness :
    wdescC4.id.isSome = true
    ∧ ((∀ p, classify wenvC4 wdescC4 ≠ AdmissionOutcome.admitted p)
      ∧ (checkDisabledPasses wenvC4 wdescC4 = true → checkGKPasses wenvC4 wdescC4 = true →
          ∃ m, classify wenvC4 wdescC4 = AdmissionOutcome.failed m)
      ∧ (∀ pre post, (runAdmission wenvC4 (pre ++ wdescC4 :: post)).initialPlugins
          = (runAdmission wenvC4 pre).initialPlugins
            ++ (runAdmission wenvC4 post).initialPlugins)) :=
  ⟨rfl, id_descriptor_never_admitted wenvC4 wdescC4 rfl⟩

/-! ### C5: metadata backfill -/

def cimplC5 : LoadedPlugin :=
  { extendsBase := true, className := "NetworkPlugin", id := some "NetworkPlugin",
    out := none, gatekeeper := none, entry := some "" }

def cdescC5 : PluginDefinition :=
  { id := none, name := "Network", out := some "/plugins/network",
    gatekeeper := none, entry := some "index.js" }

def creqC5 : Option String → Except String LoadedPlugin := fun _ => Except.ok cimplC5

/-- Counterexample to claim C5 as stated: the implementation declares
`entry = ""` — a declared (but JS-falsy) value — yet the descriptor's entry
overwrites it, so a value already declared by the implementation is not
always preserved. -/
theorem backfill_overrides_declared_empty_cex :
    cimplC5.entry = some ""
    ∧ requirePluginOne creqC5 cdescC5 = Except.ok (applyBackfill cdescC5 cimplC5)
    ∧ (applyBackfill cdescC5 cimplC5).entry = some "index.js"
    ∧ (applyBackfill cdescC5 cimplC5).entry ≠ cimplC5.entry :=
  ⟨rfl, rfl, by decide, by decide⟩

/-- Claim C5 (amended): for a descriptor that loads successfully, each
metadata field carried by the descriptor (other than name and id) is copied
onto the implementation exactly when the implementation's own value for
that field is JS-falsy — absent or the empty string; a non-falsy
implementation-declared value is never overridden, but an
implementation-declared empty string is overridden by the descriptor. -/
theorem backfill_only_when_jsfalsy (reqFn : Option String → Except String LoadedPlugin)
    (d : PluginDefinition) (impl : LoadedPlugin)
    (hreq : reqFn d.out = Except.ok impl) (hbase : impl.extendsBase = true)
    (hid : d.id = none) :
    requirePluginOne reqFn d = Except.ok (applyBackfill d impl)
    ∧ (jsFalsy impl.out = false → (applyBackfill d impl).out = impl.out)
    ∧ (jsFalsy impl.gatekeeper = false → (applyBackfill d impl).gatekeeper = impl.gatekeeper)
    ∧ (jsFalsy impl.entry = false → (applyBackfill d impl).entry = impl.entry)
    ∧ (∀ v, jsFalsy impl.out = true → d.out = some v → (applyBackfill d impl).out = some v)
    ∧ (∀ v, jsFalsy impl.gatekeeper = true → d.gatekeeper = some v →
        (applyBackfill d impl).gatekeeper = some v)
    ∧ (∀ v, jsFalsy impl.entry = true → d.entry = some v →
        (applyBackfill d impl).entry = some v) := by
  refine ⟨?_, ?_, ?_, ?_, ?_, ?_, ?_⟩
  · unfold requirePluginOne
    rw [hreq]
    simp [hbase, hid]
  · intro hf; cases hdo : d.out <;> simp [applyBackfill, orElseJS, hdo, hf]
  · intro hf; cases hdg : d.gatekeeper <;> simp [applyBackfill, orElseJS, hdg, hf]
  · intro hf; cases hde : d.entry <;> simp [applyBackfill, orElseJS, hde, hf]
  · intro v hf hdo; simp [applyBackfill, orElseJS, hdo, hf]
  · intro v hf hdg; simp [applyBackfill, orElseJS, hdg, hf]
  · intro v hf hde; simp [applyBackfill, orElseJS, hde, hf]

def wimplC5 : LoadedPlugin :=
  { extendsBase := true, className := "LogsPlugin", id := none, out := none,
    gatekeeper := some "gk_logs", entry := none }

def wdescC5 : PluginDefinition :=
  { id := none, name := "Logs", out := some "/plugins/logs",
    gatekeeper := none, entry := some "main.js" }

def wreqC5 : Option String → Except String LoadedPlugin := fun _ => Except.ok wimplC5

theorem backfill_only_when_jsfalsy_witness :
    wreqC5 wdescC5.out = Except.ok wimplC5
    ∧ wimplC5.extendsBase = true
    ∧ wdescC5.id = none
    ∧ (requirePluginOne wreqC5 wdescC5 = Except.ok (applyBackfill wdescC5 wimplC5)
      ∧ (jsFalsy wimplC5.out = false → (applyBackfill wdescC5 wimplC5).out = wimplC5.out)
      ∧ (jsFalsy wimplC5.gatekeeper = false →
          (applyBackfill wdescC5 wimplC5).gatekeeper = wimplC5.gatekeeper)
      ∧ (jsFalsy wimplC5.entry = false → (applyBackfill wdescC5 wimplC5).entry = wimplC5.entry)
      ∧ (∀ v, jsFalsy wimplC5.out = true → wdescC5.out = some v →
          (applyBackfill wdescC5 wimplC5).out = some v)
      ∧ (∀ v, jsFalsy wimplC5.gatekeeper = true → wdescC5.gatekeeper = some v →
          (applyBackfill wdescC5 wimplC5).gatekeeper = some v)
      ∧ (∀ v, jsFalsy wimplC5.entry = true → wdescC5.entry = some v →
          (applyBackfill wdescC5 wimplC5).entry = some v)) :=
  ⟨rfl, rfl, rfl, backfill_only_when_jsfalsy wreqC5 wdescC5 wimplC5 rfl rfl rfl⟩

/-! ### C9: admitted plugins always have an id -/

def cimplC9 : LoadedPlugin :=
  { extendsBase := true, className := "AnonPlugin", id := none, out := none,
    gatekeeper := none, entry := none }

def cdescC9 : PluginDefinition :=
  { id := none, name := "", out := some "/plugins/anon", gatekeeper := none, entry := none }

def cenvC9 : PluginEnvironment :=
  { disabledList := [], gkGet := fun _ => true, reqFn := fun _ => Except.ok cimplC9 }

/-- Counterexample to claim C9 as stated: a descriptor whose (required) name
is the empty string is admitted with `id = some ""` — the runtime identity
is set but empty, so an admitted plugin does not always have a non-empty id. -/
theorem admitted_with_empty_id_cex :
    classify cenvC9 cdescC9 = AdmissionOutcome.admitted (applyBackfill cdescC9 cimplC9)
    ∧ (applyBackfill cdescC9 cimplC9).id = some ""
    ∧ (runAdmission cenvC9 [cdescC9]).initialPlugins = [applyBackfill cdescC9 cimplC9] :=
  ⟨rfl, rfl, rfl⟩

theorem requirePluginOne_ok_shape (reqFn : Option String → Except String LoadedPlugin)
    (d : PluginDefinition) (q : LoadedPlugin)
    (h : requirePluginOne reqFn d = Except.ok q) :
    ∃ impl, reqFn d.out = Except.ok impl ∧ q = applyBackfill d impl := by
  unfold requirePluginOne at h
  cases hr : reqFn d.out with
  | error m => simp [hr] at h
  | ok impl =>
    rw [hr] at h
    cases hb : impl.extendsBase with
    | false => simp [hb] at h
    | true =>
      cases hi : d.id.isSome with
      | true => simp [hb, hi] at h
      | false =>
        simp [hb, hi] at h
        exact ⟨impl, rfl, h.symm⟩

theorem applyBackfill_id (d : PluginDefinition) (impl : LoadedPlugin) :
    (applyBackfill d impl).id.isSome = true
    ∧ (d.name ≠ "" → (applyBackfill d impl).id ≠ some "") := by
  cases hi : impl.id with
  | none =>
    constructor
    · simp [applyBackfill, orElseJS, jsFalsy, hi]
    · intro hname heq
      simp [applyBackfill, orElseJS, jsFalsy, hi] at heq
      exact hname heq
  | some s =>
    cases hs : (s == "") with
    | true =>
      have hs' : s = "" := by simpa using hs
      constructor
      · simp [applyBackfill, orElseJS, jsFalsy, hi, hs']
      · intro hname heq
        simp [applyBackfill, orElseJS, jsFalsy, hi, hs'] at heq
        exact hname heq
    | false =>
      constructor
      · simp [applyBackfill, orElseJS, jsFalsy, hi, hs]
      · intro hname heq
        simp [applyBackfill, orElseJS, jsFalsy, hi, hs] at heq
        rw [heq] at hs
        simp at hs

/-- Claim C9 (amended): every admitted plugin has its id set — the
implementation's own id when that is non-falsy, otherwise the descriptor's
name — so the id is non-empty whenever the descriptor's name is non-empty;
a descriptor with an empty name, however, can yield an admitted plugin
whose id is the empty string. -/
theorem admitted_plugin_id_always_set (env : PluginEnvironment) (d : PluginDefinition)
    (p : LoadedPlugin) (h : classify env d = AdmissionOutcome.admitted p) :
    p.id.isSome = true ∧ (d.name ≠ "" → p.id ≠ some "") := by
  unfold classify at h
  cases h1 : checkDisabledPasses env d <;> simp [h1] at h
  cases h2 : checkGKPasses env d <;> simp [h2] at h
  cases hr : requirePluginOne env.reqFn d with
  | error m => simp [hr] at h
  | ok q =>
    simp [hr] at h
    obtain ⟨impl, _, hq⟩ := requirePluginOne_ok_shape env.reqFn d q hr
    rw [← h, hq]
    exact applyBackfill_id d impl

def wimplC9 : LoadedPlugin :=
  { extendsBase := true, className := "CrashPlugin", id := none, out := none,
    gatekeeper := none, entry := none }

def wdescC9 : PluginDefinition :=
  { id := none, name := "CrashReporter", out := some "/plugins/crash",
    gatekeeper := none, entry := none }

def wenvC9 : PluginEnvironment :=
  { disabledList := [], gkGet := fun _ => true, reqFn := fun _ => Except.ok wimplC9 }

theorem admitted_plugin_id_always_set_witness :
    classify wenvC9 wdescC9 = AdmissionOutcome.admitted (applyBackfill wdescC9 wimplC9)
    ∧ ((applyBackfill wdescC9 wimplC9).id.isSome = true
      ∧ (wdescC9.name ≠ "" → (applyBackfill wdescC9 wimplC9).id ≠ some "")) :=
  ⟨rfl, admitted_plugin_id_always_set wenvC9 wdescC9 (applyBackfill wdescC9 wimplC9) rfl⟩

/-! ## Device lifecycle watcher (dispatcher/androidDevice)

The watcher translates adb tracker events into store dispatches. The store
reducers for `REGISTER_DEVICE` and `UNREGISTER_DEVICES` live in
`../reducers/index`, which is not part of the excerpt; they are modelled
from the spec below. Everything else is translated from the source. -/

/-- A device handle in the registry (`BaseDevice`/`AndroidDevice`):
`serial` is the adb id, `kind` the `'emulator' | 'physical'` string computed
by `createDevice`, `name` the resolved title (`none` when the platform
property was missing), `isAndroid` models `device instanceof AndroidDevice`
(the registry can also hold devices from other sources). -/
structure DeviceHandle where
  serial : String
  kind : String
  name : Option String
  isArchived : Bool
  isAndroid : Bool
deriving DecidableEq, Repr

/-- Modelled from the spec: `BaseDevice.archive()` is outside the excerpt;
the spec says an archived handle is the same handle with the archived flag
set once the transport has disconnected. -/
def archiveDevice (d : DeviceHandle) : DeviceHandle :=
  { d with isArchived := true }

/-- Modelled from the spec: the `REGISTER_DEVICE` reducer is in
`../reducers/index`, outside the excerpt. The spec describes the registry as
a "mapping from device identifier to Device Handle plus archived flag", so
dispatching a device stores it under its id: it replaces the entry with the
same serial when one exists and appends otherwise. -/
def registerDeviceAction (d : DeviceHandle) (devices : List DeviceHandle) :
    List DeviceHandle :=
  if devices.any (fun x => x.serial == d.serial) then
    devices.map (fun x => if x.serial == d.serial then d else x)
  else devices ++ [d]

/-- Modelled from the spec: the `UNREGISTER_DEVICES` reducer is in
`../reducers/index`, outside the excerpt; its payload is a set of serials
and it removes every registry entry whose id is in the set. -/
def unregisterDevicesAction (ids : List String) (devices : List DeviceHandle) :
    List DeviceHandle :=
  devices.filter (fun d => !(ids.contains d.serial))

/-- From `registerDevice` (part_001 lines 154-191): collect the serials of
archived devices with the new device's serial, dispatch `UNREGISTER_DEVICES`
for them, then dispatch `REGISTER_DEVICE` with the new live handle. -/
def registerDevice (androidDevice : DeviceHandle) (devices : List DeviceHandle) :
    List DeviceHandle :=
  registerDeviceAction androidDevice
    (unregisterDevicesAction
      ((devices.filter (fun d => d.serial == androidDevice.serial && d.isArchived)).map
        (fun d => d.serial))
      devices)

/-- One step of the `archivedDevices` computation inside
`unregisterDevices` (lines 202-209): find the registry entry with this
serial and, provided it exists and is live (`if (device &&
!device.isArchived) return device.archive()`), produce its archived copy. -/
def archiveLiveEntry (devices : List DeviceHandle) (id : String) : Option DeviceHandle :=
  match devices.find? (fun d => d.serial == id) with
  | some d => if d.isArchived then none else some (archiveDevice d)
  | none => none

/-- The `archivedDevices` array computed inside `unregisterDevices`
(lines 201-210): the archived copies of the previously live entries among
the given ids, with the misses filtered out (`filter(Boolean)`). -/
def archivedCopies (deviceIds : List String) (devices : List DeviceHandle) :
    List DeviceHandle :=
  deviceIds.filterMap (archiveLiveEntry devices)

/-- From `unregisterDevices` (lines 193-223): dispatch `UNREGISTER_DEVICES`
with all the ids, then re-dispatch `REGISTER_DEVICE` for each archived copy
of a previously live entry. -/
def unregisterDevices (deviceIds : List String) (devices : List DeviceHandle) :
    List DeviceHandle :=
  (archivedCopies deviceIds devices).foldl
    (fun acc p => registerDeviceAction p acc)
    (unregisterDevicesAction deviceIds devices)

/-- The registry states reachable through the watcher's two mutations:
registering a freshly created (hence live) device and unregistering a list
of ids. The tracker handlers (`add`, `change`, `remove`) and the
connection-closed error handler only ever mutate the registry through these
two functions. -/
inductive Reachable : List DeviceHandle → Prop
  | init : Reachable []
  | register (d : DeviceHandle) (hlive : d.isArchived = false) {s : List DeviceHandle} :
      Reachable s → Reachable (registerDevice d s)
  | unregister (ids : List String) {s : List DeviceHandle} :
      Reachable s → Reachable (unregisterDevices ids s)

/-! ### Serial uniqueness invariant -/

theorem registerDeviceAction_serials (d : DeviceHandle) (l : List DeviceHandle) :
    (registerDeviceAction d l).map (fun x => x.serial) = l.map (fun x => x.serial)
    ∨ ((registerDeviceAction d l).map (fun x => x.serial)
          = l.map (fun x => x.serial) ++ [d.serial]
        ∧ d.serial ∉ l.map (fun x => x.serial)) := by
  unfold registerDeviceAction
  by_cases ha : l.any (fun x => x.serial == d.serial) = true
  · left
    rw [if_pos ha, List.map_map]
    apply List.map_congr_left
    intro x _
    by_cases hx : (x.serial == d.serial) = true
    · simp only [Function.comp_apply, if_pos hx]
      exact (eq_of_beq hx).symm
    · simp only [Function.comp_apply, if_neg hx]
  · right
    rw [if_neg ha]
    constructor
    · simp
    · intro hmem
      obtain ⟨x, hx, hser⟩ := List.mem_map.mp hmem
      exact ha (List.any_eq_true.mpr ⟨x, hx, by simp [hser]⟩)

theorem registerDeviceAction_nodup (d : DeviceHandle) (l : List DeviceHandle)
    (h : (l.map (fun x => x.serial)).Nodup) :
    ((registerDeviceAction d l).map (fun x => x.serial)).Nodup := by
  rcases registerDeviceAction_serials d l with heq | ⟨heq, hnot⟩
  · rw [heq]; exact h
  · rw [heq]
    simp [List.nodup_append, h, hnot]

theorem unregisterDevicesAction_nodup (ids : List String) (l : List DeviceHandle)
    (h : (l.map (fun x => x.serial)).Nodup) :
    ((unregisterDevicesAction ids l).map (fun x => x.serial)).Nodup :=
  h.sublist ((List.filter_sublist l).map (fun x => x.serial))

theorem foldl_registerDeviceAction_nodup (items : List DeviceHandle)
    (acc : List DeviceHandle) (h : (acc.map (fun x => x.serial)).Nodup) :
    ((items.foldl (fun a p => registerDeviceAction p a) acc).map
        (fun x => x.serial)).Nodup := by
  induction items generalizing acc with
  | nil => exact h
  | cons q rest ih =>
    exact ih (registerDeviceAction q acc) (registerDeviceAction_nodup q acc h)

/-- In every reachable registry state the serials are pairwise distinct. -/
theorem reachable_serials_nodup (s : List DeviceHandle) (h : Reachable s) :
    (s.map (fun x => x.serial)).Nodup := by
  induction h with
  | init => simp
  | register d hlive hr ih =>
    exact registerDeviceAction_nodup _ _ (unregisterDevicesAction_nodup _ _ ih)
  | unregister ids hr ih =>
    exact foldl_registerDeviceAction_nodup _ _ (unregisterDevicesAction_nodup _ _ ih)

theorem nodup_filter_serial_le_one (s : List DeviceHandle)
    (h : (s.map (fun x => x.serial)).Nodup) (ser : String) :
    (s.filter (fun d => !d.isArchived && d.serial == ser)).length ≤ 1 := by
  induction s with
  | nil => simp
  | cons a t ih =>
    rw [List.map_cons, List.nodup_cons] at h
    by_cases ha : (!a.isArchived && a.serial == ser) = true
    · have haser : a.serial = ser := by
        have := (Bool.and_eq_true _ _).mp ha
        exact eq_of_beq this.2
      have htail : t.filter (fun d => !d.isArchived && d.serial == ser) = [] := by
        rw [List.filter_eq_nil_iff]
        intro d hd hdser
        have hdser' : d.serial = ser :=
          eq_of_beq ((Bool.and_eq_true _ _).mp hdser).2
        exact h.1 (List.mem_map.mpr ⟨d, hd, by rw [hdser', haser]⟩)
      rw [List.filter_cons, if_pos ha, htail]
      simp
    · rw [List.filter_cons, if_neg ha]
      exact ih h.2

theorem registerDeviceAction_mem_self (d : DeviceHandle) (l : List DeviceHandle) :
    d ∈ registerDeviceAction d l := by
  unfold registerDeviceAction
  by_cases ha : l.any (fun x => x.serial == d.serial) = true
  · rw [if_pos ha]
    obtain ⟨x, hx, hser⟩ := List.any_eq_true.mp ha
    exact List.mem_map.mpr ⟨x, hx, by simp [hser]⟩
  · rw [if_neg ha]
    simp

theorem registerDeviceAction_same_serial_eq (d : DeviceHandle) (l : List DeviceHandle)
    (x : DeviceHandle) (hx : x ∈ registerDeviceAction d l) (hser : x.serial = d.serial) :
    x = d := by
  unfold registerDeviceAction at hx
  by_cases ha : l.any (fun y => y.serial == d.serial) = true
  · rw [if_pos ha] at hx
    obtain ⟨y, _, hyx⟩ := List.mem_map.mp hx
    by_cases hy : (y.serial == d.serial) = true
    · rw [if_pos hy] at hyx; exact hyx.symm
    · rw [if_neg hy] at hyx
      rw [← hyx] at hser
      exact absurd (by simp [hser]) hy
  · rw [if_neg ha] at hx
    rcases List.mem_append.mp hx with hmem | hmem
    · exact absurd (List.any_eq_true.mpr ⟨x, hmem, by simp [hser]⟩) ha
    · simpa using hmem

theorem registerDevice_same_serial_eq (nd : DeviceHandle) (s : List DeviceHandle)
    (x : DeviceHandle) (hx : x ∈ registerDevice nd s) (hser : x.serial = nd.serial) :
    x = nd :=
  registerDeviceAction_same_serial_eq nd _ x hx hser

/-- Claim C2: in every reachable registry state there is at most one
non-archived handle per serial; registering a reconnected live handle makes
the new handle the unique entry with its serial, and any previously archived
handle with that serial is removed outright (not merged) by the
registration. -/
theorem registry_one_live_handle_per_id (s : List DeviceHandle) (h : Reachable s)
    (ser : String) (nd : DeviceHandle) (hnd : nd.isArchived = false) :
    (s.filter (fun d => !d.isArchived && d.serial == ser)).length ≤ 1
    ∧ nd ∈ registerDevice nd s
    ∧ (∀ x ∈ registerDevice nd s, x.serial = nd.serial → x = nd)
    ∧ (∀ x ∈ s, x.serial = nd.serial → x.isArchived = true → x ∉ registerDevice nd s) := by
  refine ⟨nodup_filter_serial_le_one s (reachable_serials_nodup s h) ser,
    registerDeviceAction_mem_self nd _, ?_, ?_⟩
  · intro x hx hser
    exact registerDevice_same_serial_eq nd s x hx hser
  · intro x _ hser harch hmem
    have hx : x = nd := registerDevice_same_serial_eq nd s x hmem hser
    rw [hx] at harch
    rw [hnd] at harch
    cases harch

def devLive : DeviceHandle :=
  { serial := "emulator-5554", kind := "emulator", name := some "Pixel_3_API_29",
    isArchived := false, isAndroid := true }

def devIncoming : DeviceHandle :=
  { serial := "emulator-5554", kind := "emulator", name := some "Pixel_3_API_29",
    isArchived := false, isAndroid := true }

/-- A reachable state holding one archived handle: register the device, then
unregister its serial (which archives it in place). -/
def archivedStateC2 : List DeviceHandle :=
  unregisterDevices ["emulator-5554"] (registerDevice devLive [])

theorem registry_one_live_handle_per_id_witness :
    Reachable archivedStateC2
    ∧ devIncoming.isArchived = false
    ∧ ((archivedStateC2.filter
          (fun d => !d.isArchived && d.serial == "emulator-5554")).length ≤ 1
      ∧ devIncoming ∈ registerDevice devIncoming archivedStateC2
      ∧ (∀ x ∈ registerDevice devIncoming archivedStateC2,
          x.serial = devIncoming.serial → x = devIncoming)
      ∧ (∀ x ∈ archivedStateC2, x.serial = devIncoming.serial →
          x.isArchived = true → x ∉ registerDevice devIncoming archivedStateC2)) :=
  ⟨Reachable.unregister ["emulator-5554"] (Reachable.register devLive rfl Reachable.init),
   rfl,
   registry_one_live_handle_per_id archivedStateC2
     (Reachable.unregister ["emulator-5554"] (Reachable.register devLive rfl Reachable.init))
     "emulator-5554" devIncoming rfl⟩

/-! ### C7: tracker error handling -/

theorem find_serial_eq (s : List DeviceHandle) (h : (s.map (fun x => x.serial)).Nodup)
    (d : DeviceHandle) (hd : d ∈ s) :
    s.find? (fun x => x.serial == d.serial) = some d := by
  induction s with
  | nil => cases hd
  | cons a t ih =>
    rw [List.map_cons, List.nodup_cons] at h
    rcases List.mem_cons.mp hd with rfl | hdt
    · rw [List.find?_cons_of_pos _ (by simp)]
    · have hane : ¬((a.serial == d.serial) = true) := by
        intro hb
        exact h.1 (List.mem_map.mpr ⟨d, hdt, (eq_of_beq hb).symm⟩)
      rw [List.find?_cons_of_neg _ (by simpa using hane)]
      exact ih h.2 hdt

theorem archiveDevice_mem_archivedCopies (ids : List String) (s : List DeviceHandle)
    (hnd : (s.map (fun x => x.serial)).Nodup) (d : DeviceHandle)
    (hd : d ∈ s) (hid : d.serial ∈ ids) (hlive : d.isArchived = false) :
    archiveDevice d ∈ archivedCopies ids s := by
  unfold archivedCopies
  apply List.mem_filterMap.mpr
  refine ⟨d.serial, hid, ?_⟩
  unfold archiveLiveEntry
  rw [find_serial_eq s hnd d hd]
  simp [hlive]

theorem archiveLiveEntry_serial (s : List DeviceHandle) (i : String) (b : DeviceHandle)
    (h : archiveLiveEntry s i = some b) : b.serial = i := by
  unfold archiveLiveEntry at h
  cases hf : s.find? (fun d => d.serial == i) with
  | none => rw [hf] at h; cases h
  | some d =>
    rw [hf] at h
    cases harch : d.isArchived with
    | true => simp [harch] at h
    | false =>
      simp [harch] at h
      have hbeq := List.find?_some hf
      have hser : d.serial = i := eq_of_beq hbeq
      rw [← h]
      exact hser

theorem archivedCopies_serials_sublist (ids : List String) (s : List DeviceHandle) :
    ((archivedCopies ids s).map (fun x => x.serial)).Sublist ids := by
  induction ids with
  | nil => simp [archivedCopies]
  | cons i rest ih =>
    unfold archivedCopies
    rw [List.filterMap_cons]
    cases hf : archiveLiveEntry s i with
    | none => exact List.Sublist.cons i ih
    | some b =>
      rw [List.map_cons, archiveLiveEntry_serial s i b hf]
      exact List.Sublist.cons₂ i ih

theorem registerDeviceAction_mem_of_ne (r : DeviceHandle) (acc : List DeviceHandle)
    (p : DeviceHandle) (hp : p ∈ acc) (hne : p.serial ≠ r.serial) :
    p ∈ registerDeviceAction r acc := by
  unfold registerDeviceAction
  by_cases ha : acc.any (fun x => x.serial == r.serial) = true
  · rw [if_pos ha]
    refine List.mem_map.mpr ⟨p, hp, ?_⟩
    rw [if_neg (by simp [hne])]
  · rw [if_neg ha]
    exact List.mem_append_left _ hp

theorem mem_foldl_of_forall_ne (items : List DeviceHandle) :
    ∀ acc p, p ∈ acc → (∀ r ∈ items, p.serial ≠ r.serial) →
      p ∈ items.foldl (fun a q => registerDeviceAction q a) acc := by
  induction items with
  | nil => intro acc p hp _; exact hp
  | cons q rest ih =>
    intro acc p hp hne
    rw [List.foldl_cons]
    exact ih _ p
      (registerDeviceAction_mem_of_ne q acc p hp (hne q (List.mem_cons_self q rest)))
      (fun r hr => hne r (List.mem_cons_of_mem q hr))

theorem mem_foldl_registerDeviceAction (items : List DeviceHandle) :
    ∀ acc p, p ∈ items → ((items.map (fun x => x.serial)).Nodup) →
      p ∈ items.foldl (fun a q => registerDeviceAction q a) acc := by
  induction items with
  | nil => intro acc p hp _; cases hp
  | cons q rest ih =>
    intro acc p hp hnd
    rw [List.map_cons, List.nodup_cons] at hnd
    rcases List.mem_cons.mp hp with rfl | hrest
    · rw [List.foldl_cons]
      apply mem_foldl_of_forall_ne rest _ p (registerDeviceAction_mem_self p acc)
      intro r hr heq
      exact hnd.1 (List.mem_map.mpr ⟨r, hr, heq.symm⟩)
    · rw [List.foldl_cons]
      exact ih _ p hrest hnd.2

/-- From the tracker `error` handler (lines 103-121): a "Connection closed"
error collects the serials of every `AndroidDevice` in the registry, runs
`unregisterDevices` on them (archiving the live ones), and schedules
`watchAndroidDevices` again via `setTimeout(..., 500)` — the fixed backoff
returned alongside the new registry; any other error is rethrown, modelled
as `Except.error`. -/
def onTrackerError (errMessage : String) (devices : List DeviceHandle) :
    Except String (List DeviceHandle × Nat) :=
  if errMessage = "Connection closed" then
    Except.ok
      (unregisterDevices
        ((devices.filter (fun d => d.isAndroid)).map (fun d => d.serial)) devices, 500)
  else Except.error errMessage

/-- Claim C7: on a "Connection closed" tracker error every live Android
entry of the registry ends up archived in the new registry and the watcher
is rescheduled with the fixed 500 ms backoff; any other tracker error is
rethrown to the caller, terminating the watcher. -/
theorem tracker_error_semantics (devices : List DeviceHandle) (h : Reachable devices)
    (msg : String) :
    (msg = "Connection closed" →
      onTrackerError msg devices
        = Except.ok
            (unregisterDevices
              ((devices.filter (fun d => d.isAndroid)).map (fun d => d.serial)) devices,
             500)
      ∧ ∀ d ∈ devices, d.isAndroid = true → d.isArchived = false →
          archiveDevice d ∈ unregisterDevices
            ((devices.filter (fun d => d.isAndroid)).map (fun d => d.serial)) devices)
    ∧ (msg ≠ "Connection closed" → onTrackerError msg devices = Except.error msg) := by
  constructor
  · intro hmsg
    constructor
    · unfold onTrackerError
      rw [if_pos hmsg]
    · intro d hd hand hlive
      have hnd := reachable_serials_nodup devices h
      unfold unregisterDevices
      apply mem_foldl_registerDeviceAction
      · exact archiveDevice_mem_archivedCopies _ _ hnd d hd
          (List.mem_map.mpr ⟨d, List.mem_filter.mpr ⟨hd, by simp [hand]⟩, rfl⟩) hlive
      · have hids : ((devices.filter (fun d => d.isAndroid)).map
            (fun x => x.serial)).Nodup :=
          hnd.sublist ((List.filter_sublist devices).map (fun x => x.serial))
        exact hids.sublist (archivedCopies_serials_sublist _ _)
  · intro hmsg
    unfold onTrackerError
    rw [if_neg hmsg]

def liveStateC7 : List DeviceHandle := registerDevice devLive []

theorem tracker_error_semantics_witness :
    Reachable liveStateC7
    ∧ (("Connection closed" = "Connection closed" →
        onTrackerError "Connection closed" liveStateC7
          = Except.ok
              (unregisterDevices
                ((liveStateC7.filter (fun d => d.isAndroid)).map (fun d => d.serial))
                liveStateC7, 500)
        ∧ ∀ d ∈ liveStateC7, d.isAndroid = true → d.isArchived = false →
            archiveDevice d ∈ unregisterDevices
              ((liveStateC7.filter (fun d => d.isAndroid)).map (fun d => d.serial))
              liveStateC7)
      ∧ ("Connection closed" ≠ "Connection closed" →
          onTrackerError "Connection closed" liveStateC7
            = Except.error "Connection closed")) :=
  ⟨Reachable.register devLive rfl Reachable.init,
   tracker_error_semantics liveStateC7 (Reachable.register devLive rfl Reachable.init)
     "Connection closed"⟩

/-! ### C8: cancellation and in-flight registrations -/

/-- The watcher's externally visible state: whether the cleanup handle has
been invoked and the current device registry slice. -/
structure WatcherState where
  cancelled : Bool
  registry : List DeviceHandle
deriving DecidableEq, Repr

/-- The two events relevant to cancellation: invoking the stop/cleanup
handle, and an in-flight `registerDevice` call (started from an earlier
`add`/`change` event) finally resolving with its created device handle. -/
inductive WatcherEvent where
  | stop
  | completeRegistration (d : DeviceHandle)
deriving DecidableEq, Repr

/-- From the source: the cleanup handle (lines 228-231) only kills the adb
client — it sets no cancellation flag — and `registerDevice`
(lines 154-191) dispatches unconditionally once `createDevice` resolves, so
a completing registration mutates the registry whether or not the watcher
has been cancelled. -/
def watcherStep (s : WatcherState) : WatcherEvent → WatcherState
  | WatcherEvent.stop => { s with cancelled := true }
  | WatcherEvent.completeRegistration d =>
      { s with registry := registerDevice d s.registry }

def watcherRun (s : WatcherState) (events : List WatcherEvent) : WatcherState :=
  events.foldl watcherStep s

def watcherStart : WatcherState := { cancelled := false, registry := [] }

/-- Counterexample to claim C8 as stated: an in-flight registration that
resolves after the stop handle has run still upserts its device — the
cancelled watcher's registry is mutated from empty to one entry. -/
theorem cancelled_watcher_still_mutates_cex :
    (watcherRun watcherStart
        [WatcherEvent.stop, WatcherEvent.completeRegistration devLive]).cancelled = true
    ∧ (watcherRun watcherStart
        [WatcherEvent.stop, WatcherEvent.completeRegistration devLive]).registry
      = [devLive]
    ∧ [devLive] ≠ ([] : List DeviceHandle) := by decide

/-- Claim C8 (amended): invoking the stop handle only kills the adb client
and leaves the registry untouched, but it installs no suppression: a
registration completing afterwards upserts into the registry exactly as it
would before cancellation, regardless of the cancelled flag. -/
theorem completion_ignores_cancellation (s : WatcherState) (d : DeviceHandle) :
    (watcherStep s (WatcherEvent.completeRegistration d)).registry
        = registerDevice d s.registry
    ∧ (watcherStep s (WatcherEvent.completeRegistration d)).cancelled = s.cancelled
    ∧ (watcherStep s WatcherEvent.stop).registry = s.registry
    ∧ (watcherStep s WatcherEvent.stop).cancelled = true :=
  ⟨rfl, rfl, rfl, rfl⟩

/-! ### C6 and C10: device creation and the add handler -/

/-- A raw device record from the adb tracker stream: `{id, type}`. -/
structure RawDeviceEvent where
  id : String
  type : String
deriving DecidableEq, Repr

/-- JS `String.prototype.startsWith`, character by character. -/
def startsWithJS (s pre : String) : Bool :=
  pre.toList.isPrefixOf s.toList

/-- From `createDevice` (lines 25-28): the device is an emulator when its
tracker type is not 'device' or its id starts with 'emulator'. -/
def adbDeviceKind (device : RawDeviceEvent) : String :=
  if !(device.type == "device") || startsWithJS device.id "emulator" then "emulator"
  else "physical"

/-- Lookup in the property map returned by `adbClient.getProperties`. -/
def getProp (props : List (String × String)) (key : String) : Option String :=
  (props.find? (fun kv => kv.fst == key)).map (fun kv => kv.snd)

/-- The longest newline-free suffix: the text the capture group `(.*)` can
match immediately before the marker (`.` matches neither CR nor LF). -/
def lastSegmentChars (l : List Char) : List Char :=
  (l.reverse.takeWhile (fun c => !(c == '\r' || c == '\n'))).reverse

/-- The JS expression `data.trim().match(/(.*)\r\nOK$/)` reduced to its
capture (lines 66-67): trim whitespace from both ends; if the result ends
with CR LF 'O' 'K', the capture is the last line before that marker,
otherwise the match is null. -/
def avdNameMatch (data : String) : Option String :=
  let t := ((data.toList.dropWhile Char.isWhitespace).reverse.dropWhile
      Char.isWhitespace).reverse
  if [ '\r', '\n', 'O', 'K'].isSuffixOf t then
    some (String.mk (lastSegmentChars (t.take (t.length - 4))))
  else none

/-- From `getRunningEmulatorName` (lines 52-74): the exec callback resolves
with the parsed capture whenever it received string data (even empty or
partial output collected after the 1 s timeout kill); only when it received
no string data does it reject — and that rejection is unhandled inside
`createDevice`'s executor, leaving the promise pending forever (`none`). -/
def getRunningEmulatorName (data : Option String) : Option (Option String) :=
  match data with
  | some s => some (avdNameMatch s)
  | none => none

/-- From `createDevice` (lines 19-42): fetch the properties, take
`ro.product.model` as the name, and for emulators prefer the probed AVD
name when it is truthy (`(await getRunningEmulatorName(id)) || name`). The
two external round-trips are inputs: `props = none` models a rejected
`getProperties` call and `probeData = none` a probe rejection; in either
case the outer promise never settles (`none`) because the executor ignores
errors. The `reverse`-ports side effect on the transport is not modelled. -/
def createDevice (device : RawDeviceEvent) (props : Option (List (String × String)))
    (probeData : Option String) : Option DeviceHandle :=
  match props with
  | none => none
  | some p =>
    if adbDeviceKind device = "emulator" then
      match getRunningEmulatorName probeData with
      | none => none
      | some emuName =>
          some { serial := device.id, kind := adbDeviceKind device,
                 name := orElseJS emuName (getProp p "ro.product.model"),
                 isArchived := false, isAndroid := true }
    else
      some { serial := device.id, kind := adbDeviceKind device,
             name := getProp p "ro.product.model",
             isArchived := false, isAndroid := true }

/-- From the tracker `add` handler (lines 123-127): a device whose type is
'offline' is skipped entirely; otherwise the device is created and
registered once `createDevice` resolves. -/
def onTrackerAdd (device : RawDeviceEvent) (props : Option (List (String × String)))
    (probeData : Option String) (registry : List DeviceHandle) : List DeviceHandle :=
  if device.type ≠ "offline" then
    match createDevice device props probeData with
    | some h => registerDevice h registry
    | none => registry
  else registry

/-- Claim C6: for an emulator whose name probe yields no usable data within
its timeout (empty or unparseable collected output — JS-falsy capture),
device creation still completes, with the raw platform-reported
`ro.product.model` property as the name, so registration is not blocked by
the probe's failure. -/
theorem emulator_probe_fallback (device : RawDeviceEvent) (p : List (String × String))
    (output : String)
    (hemu : adbDeviceKind device = "emulator")
    (hprobe : jsFalsy (avdNameMatch output) = true) :
    createDevice device (some p) (some output)
      = some { serial := device.id, kind := adbDeviceKind device,
               name := getProp p "ro.product.model",
               isArchived := false, isAndroid := true } := by
  simp only [createDevice, getRunningEmulatorName]
  rw [if_pos hemu]
  unfold orElseJS
  rw [if_pos hprobe]

def emuEventC6 : RawDeviceEvent := { id := "emulator-5554", type := "device" }

def emuPropsC6 : List (String × String) :=
  [("ro.product.model", "Android SDK built for x86")]

theorem emulator_probe_fallback_witness :
    adbDeviceKind emuEventC6 = "emulator"
    ∧ jsFalsy (avdNameMatch "") = true
    ∧ createDevice emuEventC6 (some emuPropsC6) (some "")
        = some { serial := emuEventC6.id, kind := adbDeviceKind emuEventC6,
                 name := getProp emuPropsC6 "ro.product.model",
                 isArchived := false, isAndroid := true } :=
  ⟨by decide, by decide,
   emulator_probe_fallback emuEventC6 emuPropsC6 "" (by decide) (by decide)⟩

/-- Claim C10: an `add` event whose device type is 'offline' performs no
registry mutation at all — the registry is returned unchanged, whatever the
pending property or probe data would have been. -/
theorem offline_add_leaves_registry_unchanged (device : RawDeviceEvent)
    (props : Option (List (String × String))) (probeData : Option String)
    (registry : List DeviceHandle) (h : device.type = "offline") :
    onTrackerAdd device props probeData registry = registry := by
  unfold onTrackerAdd
  rw [if_neg (by simp [h])]

theorem offline_add_leaves_registry_unchanged_witness :
    (RawDeviceEvent.mk "FA123X" "offline").type = "offline"
    ∧ onTrackerAdd (RawDeviceEvent.mk "FA123X" "offline") none none [devLive] = [devLive] :=
  ⟨rfl, offline_add_leaves_registry_unchanged (RawDeviceEvent.mk "FA123X" "offline")
    none none [devLive] rfl⟩

end FlipperSpec
